import Mathlib

/-!
A verification development for `Planning_Parcel_Tool.py` (Parcel Report
Generator, an ArcGIS Pro script tool).  The script is embedded shallowly:

* The GIS host is an opaque geometry-query provider, modelled by a record
  `GeoOps` of geometric predicates (`contains`, `overlaps`, point
  containment, centroid, extent).  Geometries themselves are opaque handles.
* A layer is its name, its feature-layer flag, its current definition
  query, and its (finite, ordered) feature list; an `arcpy.da.SearchCursor`
  over a layer enumerates the features that pass the definition query.
* Raised Python exceptions become an `Err` value: the two `raise Exception`
  statements of the script, the `StopIteration` that `next` raises on an
  exhausted cursor, and the `IndexError` of an unguarded `[0]` index.
  `Err.notFound` and `Err.unmappedDistrict` are the typed errors named by
  the pipeline's documentation; the script itself never produces them.
* The pandas data frame of `LandUse_Master.xlsx` is a list of rows; the
  chained `.str.strip().str.lower()` normalisation is `pynormalize`, a
  transparent model of Python `str.strip` / `str.lower` on the ASCII data
  in scope.
* Coordinates are rationals (the script only ever adds the fixed offsets
  plus/minus 50 to centroid coordinates).
* The rendering subsystem is out of scope per the layout of the tool: an
  `exportToJPEG` call and the final summary write are recorded as output
  effects; camera state inside a layout is part of the opaque renderer.
-/

namespace LandUse

/-- An opaque geometry handle of the geometry provider. -/
structure Geometry where
  gid : Nat
deriving DecidableEq

/-- A planar point, as built by `arcpy.Point(x, y)`. -/
structure Point where
  x : Rat
  y : Rat
deriving DecidableEq

/-- An opaque bounding extent (`geometry.extent`). -/
structure Extent where
  eid : Nat
deriving DecidableEq

/-- The geometry provider: the predicates and derived values the script
asks of `arcpy` geometries.  `containsPt` is containment of a probe point
(`geometry.contains(point_geometry)`). -/
structure GeoOps where
  contains : Geometry → Geometry → Bool
  overlaps : Geometry → Geometry → Bool
  containsPt : Geometry → Point → Bool
  centroid : Geometry → Point
  extent : Geometry → Extent

/-- One row of a layer as read through `SearchCursor`: its `SHAPE@` plus the
two attribute fields the script ever reads (`ParcelNumber` on the parcel
layer; `PLANNAME` or `LUC_TEXT`, uniformly called `label`, elsewhere). -/
structure Feature where
  shape : Geometry
  parcelNumber : String
  label : String
deriving DecidableEq

/-- A map layer: name, `isFeatureLayer` flag, current definition query
(modelled as the parcel-number filter value that
`f"ParcelNumber = '{parcel_number}'"` denotes), and feature list. -/
structure Layer where
  name : String
  isFeatureLayer : Bool
  definitionQuery : Option String
  features : List Feature
deriving DecidableEq

/-- The single map of the project (`project.listMaps()[0]`). -/
structure MapDoc where
  layers : List Layer
deriving DecidableEq

/-- A layout: its name and the names of its map-frame elements. -/
structure Layout where
  name : String
  frames : List String
deriving DecidableEq

/-- The ArcGIS project: maps and layouts. -/
structure Project where
  maps : List MapDoc
  layouts : List Layout
deriving DecidableEq

/-- Failure modes.  `stopIteration` and `indexError` are the untyped Python
exceptions the script can hit; `districtNotFound` and `landUseNotFound` are
its two explicit `raise Exception(...)` statements; `notFound` and
`unmappedDistrict` are the further typed errors the tool's documentation
names (the script never raises either). -/
inductive Err where
  | notFound
  | districtNotFound
  | unmappedDistrict
  | landUseNotFound
  | stopIteration
  | indexError
deriving DecidableEq

/-- An output artefact of the run: a rendered JPEG (with the camera extent
and optional fixed scale it was produced under) or the summary text file. -/
inductive Effect where
  | exportJPEG (path : String) (ext : Extent) (scale : Option Rat)
  | writeSummary (path : String) (text : String)
deriving DecidableEq

/- ### Constants of the script -/

def parcel_layer_name : String := "Subject Parcel"

def district_outline_name : String := "Planning District Outline"

/-- The `district_to_layer` dictionary: PLANNAME to land-use layer name. -/
def district_to_layer : List (String × String) :=
  [("Fort Lewis Mesa", "Fort Lewis Mesa"),
   ("Animas Valley", "Animas Valley"),
   ("Animas Zoning District", "Animas Zoning District"),
   ("Gem Village Business District", "Gem Village Business District"),
   ("Durango District Plan", "Durango District Plan"),
   ("Florida Mesa", "Florida Mesa"),
   ("La Posta Road", "La Posta Road"),
   ("Florida Road", "Florida Road"),
   ("Junction Creek", "Junction Creek"),
   ("North County", "North County"),
   ("Vallecito", "Vallecito"),
   ("West Durango", "West Durango")]

/-- Python `dict.get`: the value at the key, or `None` when absent. -/
def dictGet (d : List (String × String)) (k : String) : Option String :=
  (d.find? (fun p => p.1 == k)).map (fun p => p.2)

/- ### Layer access -/

/-- The layers of a map whose name equals the wildcard string. -/
def layersNamed (ls : List Layer) (nm : String) : List Layer :=
  ls.filter (fun l => l.name == nm)

/-- `map.listLayers(wildcard)`: with `None` (as reached when
`district_to_layer.get` misses) arcpy returns every layer of the map. -/
def listLayers (m : MapDoc) : Option String → List Layer
  | none => m.layers
  | some nm => layersNamed m.layers nm

/-- The rows a `SearchCursor` over the layer enumerates: all features, or
only those matching the parcel-number definition query when one is set. -/
def cursorRows (l : Layer) : List Feature :=
  match l.definitionQuery with
  | none => l.features
  | some pid => l.features.filter (fun f => f.parcelNumber == pid)

/-- The assignment `parcel_layer.definitionQuery = ...` mutates the one
layer object obtained from `listLayers(name)[0]`: the first layer of the
map carrying that name. -/
def setFirstDefQuery : List Layer → String → String → List Layer
  | [], _, _ => []
  | l :: ls, nm, pid =>
      if l.name == nm then { l with definitionQuery := some pid } :: ls
      else l :: setFirstDefQuery ls nm pid

/- ### Step 1: parcel locator -/

/-- Step 1 of the script on the parcel layer object: set the definition
query to the parcel-number filter, then read the first cursor row
(`next(cursor)[0]`), which raises `StopIteration` when no feature matches.
The second component is the parcel layer as the script leaves it. -/
def parcel_geom_step (pl : Layer) (pid : String) : Except Err Geometry × Layer :=
  ((match (cursorRows { pl with definitionQuery := some pid }).head? with
    | some f => Except.ok f.shape
    | none => Except.error Err.stopIteration),
   { pl with definitionQuery := some pid })

/- ### Step 2: district resolver -/

/-- The district loop: the `PLANNAME` of the first feature whose shape
contains the parcel (`row[0].contains(parcel_geom)`), else `None`. -/
def firstContaining (ops : GeoOps) (parcel : Geometry) : List Feature → Option String
  | [] => none
  | f :: rest =>
      if ops.contains f.shape parcel then some f.label
      else firstContaining ops parcel rest

/-- Step 2 of the script: run the district loop over the district cursor
rows, then the falsy guard `if not planning_district: raise ...` (which
fires both on `None` and on an empty-string PLANNAME). -/
def planning_district_step (ops : GeoOps) (parcel : Geometry)
    (rows : List Feature) : Except Err String :=
  match firstContaining ops parcel rows with
  | none => Except.error Err.districtNotFound
  | some s => if s = "" then Except.error Err.districtNotFound else Except.ok s

/- ### Step 3: land-use resolver -/

/-- Lines 75-76 of the script: `district_to_layer.get(planning_district)`
followed by `map_obj.listLayers(land_use_layer_name)[0]`. -/
def land_use_layer_of (m : MapDoc) (district : String) : Except Err Layer :=
  match (listLayers m (dictGet district_to_layer district)).head? with
  | some l => Except.ok l
  | none => Except.error Err.indexError

/-- The land-use loop: the `LUC_TEXT` of the first feature whose shape
overlaps or contains the parcel, else `None`. -/
def firstLandUse (ops : GeoOps) (parcel : Geometry) : List Feature → Option String
  | [] => none
  | f :: rest =>
      if ops.overlaps f.shape parcel || ops.contains f.shape parcel then some f.label
      else firstLandUse ops parcel rest

/-- Step 3's value part: the loop over the land-use cursor rows, then the
falsy guard `if not land_use_value: raise ...`. -/
def land_use_value_step (ops : GeoOps) (parcel : Geometry)
    (rows : List Feature) : Except Err String :=
  match firstLandUse ops parcel rows with
  | none => Except.error Err.landUseNotFound
  | some s => if s = "" then Except.error Err.landUseNotFound else Except.ok s

/- ### Step 4: directional prober -/

/-- The `directions` dictionary, in insertion (hence iteration) order. -/
def directions : List (String × Rat × Rat) :=
  [("North", (0, 50)), ("East", (50, 0)), ("South", (0, -50)), ("West", (-50, 0))]

/-- The inner probe loop with its `for ... else`: the `LUC_TEXT` of the
first feature containing the probe point, else the sentinel. -/
def probeLoop (ops : GeoOps) (p : Point) : List Feature → String
  | [] => "Unknown"
  | f :: rest => if ops.containsPt f.shape p then f.label else probeLoop ops p rest

/-- Step 4: for each direction build the offset probe point
(`Point(centroid.X + dx, centroid.Y + dy)`) and classify it against the
land-use cursor rows; the result dictionary in insertion order. -/
def directional_land_use (ops : GeoOps) (rows : List Feature) (c : Point) :
    List (String × String) :=
  directions.map (fun d => (d.1, probeLoop ops ⟨c.x + d.2.1, c.y + d.2.2⟩ rows))

/- ### Step 5: metadata matcher -/

/-- Python whitespace, as stripped by `str.strip()`. -/
def pyIsSpace (c : Char) : Bool :=
  c == ' ' || c == '\t' || c == '\n' || c == '\x0b' || c == '\x0c' || c == '\r'

/-- `str.strip()` on the character list of a string. -/
def stripChars (l : List Char) : List Char :=
  ((l.dropWhile pyIsSpace).reverse.dropWhile pyIsSpace).reverse

/-- `str.lower()` on one character (the data in scope is ASCII). -/
def lowerChar (c : Char) : Char :=
  if 'A' ≤ c && c ≤ 'Z' then Char.ofNat (c.toNat + 32) else c

/-- The normalisation the script applies on both sides of the Excel match:
`.strip()` then `.lower()`. -/
def pynormalize (s : String) : String :=
  String.mk ((stripChars s.data).map lowerChar)

/-- One row of the `PlanningInfo` data frame. -/
structure MetaRow where
  districtPlan : String
  typeCol : String
  size : String
  desc : String
deriving DecidableEq

/-- The boolean-mask filter of line 101-102: rows whose normalised
`DISTRICT PLAN` and `TYPE` equal the normalised resolved pair. -/
def matchRows (df : List MetaRow) (district landUse : String) : List MetaRow :=
  df.filter (fun r =>
    (pynormalize r.districtPlan == pynormalize district) &&
    (pynormalize r.typeCol == pynormalize landUse))

/-- Step 5: `match.iloc[0]`'s `(SIZE, DESC)` when the mask is non-empty,
else the sentinel pair. -/
def matchResult (df : List MetaRow) (district landUse : String) : String × String :=
  match matchRows df district landUse with
  | r :: _ => (r.size, r.desc)
  | [] => ("Not found", "Not found")

/- ### Steps 6 and 7: layout export and summary -/

/-- `os.path.join(output_folder, name)`. -/
def pathJoin (folder nm : String) : String := folder ++ "/" ++ nm

/-- The `layout_exports` configuration: layout name, map-frame name,
optional fixed scale. -/
def layout_exports : List (String × String × Option Rat) :=
  [("Layout1", ("Figure 1", some 2640)),
   ("Layout2", ("Figure 2", none)),
   ("Layout3", ("Figure 3", none))]

/-- The export loop of Step 6.  Each iteration indexes
`project.listLayouts(layout_name)[0]` and
`layout.listElements("MAPFRAME_ELEMENT", frame)[0]` (either `[0]` raises
`IndexError` on a miss), frames the camera on the parcel extent, and emits
the JPEG.  Effects already produced survive a later `IndexError`. -/
def exportGo (layouts : List Layout) (folder pid : String) (ext : Extent) :
    List (String × String × Option Rat) → List Effect × Except Err Unit
  | [] => ([], Except.ok ())
  | (ln, fr, sc) :: rest =>
      match (layouts.filter (fun l => l.name == ln)).head? with
      | none => ([], Except.error Err.indexError)
      | some lay =>
          match (lay.frames.filter (fun f => f == fr)).head? with
          | none => ([], Except.error Err.indexError)
          | some _ =>
              let out := exportGo layouts folder pid ext rest
              (Effect.exportJPEG (pathJoin folder (pid ++ "_" ++ ln ++ ".jpg")) ext sc :: out.1,
               out.2)

/-- Step 6 over the configured three layouts. -/
def exportLayouts (layouts : List Layout) (folder pid : String) (ext : Extent) :
    List Effect × Except Err Unit :=
  exportGo layouts folder pid ext layout_exports

/-- Dictionary access `directional_land_use[key]` in the f-string; the
dictionary built in Step 4 always carries all four keys. -/
def dirLookup (dirs : List (String × String)) (k : String) : String :=
  ((dirs.find? (fun p => p.1 == k)).map (fun p => p.2)).getD ""

/-- The Step 7 f-string, byte for byte. -/
def summaryText (pid district landUse size desc : String)
    (dirs : List (String × String)) : String :=
  "\nParcel Number: " ++ pid ++
  "\nPlanning District: " ++ district ++
  "\nLand Use Type: " ++ landUse ++
  "\n\nFrom Excel:\n  Size: " ++ size ++
  "\n  Description: " ++ desc ++
  "\n\nAdjacent Land Use:\n  North: " ++ dirLookup dirs "North" ++
  "\n  East:  " ++ dirLookup dirs "East" ++
  "\n  South: " ++ dirLookup dirs "South" ++
  "\n  West:  " ++ dirLookup dirs "West" ++ "\n"

/- ### The full pipeline -/

/-- Steps 1 (cursor read) through 7, given the mutated map `m'`, the parcel
layer object `pl` and district layer object `dl` as fetched on lines 55-56,
and the run parameters.  Produces the output effects and the final
result. -/
def runAfterOut (ops : GeoOps) (df : List MetaRow) (m' : MapDoc) (pl dl : Layer)
    (pid folder : String) (layouts : List Layout) : List Effect × Except Err Unit :=
  match (parcel_geom_step pl pid).1 with
  | Except.error e => ([], Except.error e)
  | Except.ok parcel =>
      match planning_district_step ops parcel (cursorRows dl) with
      | Except.error e => ([], Except.error e)
      | Except.ok district =>
          match land_use_layer_of m' district with
          | Except.error e => ([], Except.error e)
          | Except.ok lul =>
              match land_use_value_step ops parcel (cursorRows lul) with
              | Except.error e => ([], Except.error e)
              | Except.ok landUse =>
                  match exportLayouts layouts folder pid (ops.extent parcel) with
                  | (effs, Except.error e) => (effs, Except.error e)
                  | (effs, Except.ok _) =>
                      (effs ++ [Effect.writeSummary
                        (pathJoin folder (pid ++ "_summary.txt"))
                        (summaryText pid district landUse
                          (matchResult df district landUse).1
                          (matchResult df district landUse).2
                          (directional_land_use ops (cursorRows lul)
                            (ops.centroid parcel)))],
                       Except.ok ())

instance {α : Type} [DecidableEq α] : DecidableEq (Except Err α) := fun a b =>
  match a, b with
  | Except.ok x, Except.ok y =>
      if h : x = y then isTrue (by rw [h]) else isFalse (by simp [h])
  | Except.error e, Except.error e' =>
      if h : e = e' then isTrue (by rw [h]) else isFalse (by simp [h])
  | Except.ok _, Except.error _ => isFalse (by simp)
  | Except.error _, Except.ok _ => isFalse (by simp)

/-- The observable outcome of one script run: the output artefacts emitted,
the final result (`ok` or the exception that aborted the script), and the
project state the run leaves behind. -/
structure RunOut where
  effects : List Effect
  result : Except Err Unit
  final : Project
deriving DecidableEq

/-- One full run of the script on a project state: fetch the single map and
the parcel/district layer objects (each `[0]` may raise `IndexError`),
mutate the parcel layer's definition query, then Steps 1-7.  The final
project records the definition-query mutation; it is the only layer state
the script writes. -/
def run (ops : GeoOps) (df : List MetaRow) (proj : Project) (pid folder : String) :
    RunOut :=
  match proj.maps with
  | [] => ⟨[], Except.error Err.indexError, proj⟩
  | m :: restMaps =>
      match (layersNamed m.layers parcel_layer_name).head? with
      | none => ⟨[], Except.error Err.indexError, proj⟩
      | some pl =>
          match ((layersNamed m.layers district_outline_name).filter
              (fun l => l.isFeatureLayer)).head? with
          | none => ⟨[], Except.error Err.indexError, proj⟩
          | some dl =>
              ⟨(runAfterOut ops df ⟨setFirstDefQuery m.layers parcel_layer_name pid⟩
                  pl dl pid folder proj.layouts).1,
               (runAfterOut ops df ⟨setFirstDefQuery m.layers parcel_layer_name pid⟩
                  pl dl pid folder proj.layouts).2,
               ⟨(⟨setFirstDefQuery m.layers parcel_layer_name pid⟩ : MapDoc) :: restMaps,
                proj.layouts⟩⟩

/- ### Specification-side selectors

These restate the spec's "first … for which …" phrasing via `List.find?`,
to be compared against the loop-based code above. -/

/-- Spec phrasing: the label of the first zone strictly containing the
probe point. -/
def firstZoneContainingPt (ops : GeoOps) (rows : List Feature) (p : Point) :
    Option String :=
  (rows.find? (fun f => ops.containsPt f.shape p)).map (fun f => f.label)

/-- Spec phrasing: the name of the first district whose polygon contains
the parcel. -/
def firstDistrictSpec (ops : GeoOps) (parcel : Geometry) (rows : List Feature) :
    Option String :=
  (rows.find? (fun f => ops.contains f.shape parcel)).map (fun f => f.label)

/-- Spec phrasing: the label of the first zone for which
`overlaps(parcel) OR contains(parcel)` holds. -/
def firstLandUseSpec (ops : GeoOps) (parcel : Geometry) (rows : List Feature) :
    Option String :=
  (rows.find? (fun f => ops.overlaps f.shape parcel || ops.contains f.shape parcel)).map
    (fun f => f.label)

/-- Spec phrasing: the first reference-table row whose normalised
(district, type) equals the normalised resolved pair. -/
def matchRowSpec (df : List MetaRow) (district landUse : String) : Option MetaRow :=
  df.find? (fun r =>
    (pynormalize r.districtPlan == pynormalize district) &&
    (pynormalize r.typeCol == pynormalize landUse))

/- ### Loop/selector agreement lemmas -/

lemma probeLoop_eq_spec (ops : GeoOps) (p : Point) (rows : List Feature) :
    probeLoop ops p rows = (firstZoneContainingPt ops rows p).getD "Unknown" := by
  induction rows with
  | nil => rfl
  | cons f rest ih =>
      by_cases h : ops.containsPt f.shape p = true
      · simp [probeLoop, firstZoneContainingPt, List.find?_cons_of_pos, h]
      · simp only [Bool.not_eq_true] at h
        simp [probeLoop, firstZoneContainingPt, List.find?_cons_of_neg, h,
          ih, firstZoneContainingPt]

lemma firstContaining_eq_spec (ops : GeoOps) (parcel : Geometry) (rows : List Feature) :
    firstContaining ops parcel rows = firstDistrictSpec ops parcel rows := by
  induction rows with
  | nil => rfl
  | cons f rest ih =>
      by_cases h : ops.contains f.shape parcel = true
      · simp [firstContaining, firstDistrictSpec, List.find?_cons_of_pos, h]
      · simp only [Bool.not_eq_true] at h
        simp [firstContaining, firstDistrictSpec, List.find?_cons_of_neg, h,
          ih, firstDistrictSpec]

lemma firstLandUse_eq_spec (ops : GeoOps) (parcel : Geometry) (rows : List Feature) :
    firstLandUse ops parcel rows = firstLandUseSpec ops parcel rows := by
  induction rows with
  | nil => rfl
  | cons f rest ih =>
      by_cases h : (ops.overlaps f.shape parcel || ops.contains f.shape parcel) = true
      · simp [firstLandUse, firstLandUseSpec, List.find?_cons_of_pos, h]
      · simp only [Bool.not_eq_true] at h
        simp [firstLandUse, firstLandUseSpec, List.find?_cons_of_neg, h,
          ih, firstLandUseSpec]

lemma head_filter_eq_find (p : MetaRow → Bool) (l : List MetaRow) :
    (l.filter p).head? = l.find? p := by
  induction l with
  | nil => rfl
  | cons r rest ih =>
      by_cases h : p r = true
      · simp [List.filter_cons, h, List.find?_cons_of_pos]
      · simp only [Bool.not_eq_true] at h
        simp [List.filter_cons, h, List.find?_cons_of_neg, ih]

/- ### Concrete fixtures (shared by witnesses and counterexamples) -/

/-- The subject parcel geometry. -/
def parcelGeom : Geometry := ⟨0⟩

/-- A district polygon geometry. -/
def districtGeom : Geometry := ⟨1⟩

/-- A land-use zone polygon geometry. -/
def zoneGeom : Geometry := ⟨2⟩

/-- A concrete geometry provider: geometry 1 contains the parcel,
geometry 2 overlaps the parcel and contains every probe point. -/
def opsFix : GeoOps :=
  { contains := fun a b => a.gid == 1 && b.gid == 0
    overlaps := fun a b => a.gid == 2 && b.gid == 0
    containsPt := fun a _ => a.gid == 2
    centroid := fun _ => ⟨10, 20⟩
    extent := fun g => ⟨g.gid⟩ }

/-- A provider under which nothing contains or overlaps anything. -/
def opsNone : GeoOps :=
  { contains := fun _ _ => false
    overlaps := fun _ _ => false
    containsPt := fun _ _ => false
    centroid := fun _ => ⟨0, 0⟩
    extent := fun g => ⟨g.gid⟩ }

/-- The parcel feature, with parcel number `P1`. -/
def parcelFeat : Feature := ⟨parcelGeom, "P1", ""⟩

/-- A district feature with PLANNAME `Florida Mesa`. -/
def districtFeat : Feature := ⟨districtGeom, "", "Florida Mesa"⟩

/-- A district feature carrying an empty PLANNAME. -/
def districtEmptyFeat : Feature := ⟨districtGeom, "", ""⟩

/-- A land-use zone labelled `Agricultural`. -/
def zoneFeat : Feature := ⟨zoneGeom, "", "Agricultural"⟩

/-- A land-use zone carrying an empty LUC_TEXT. -/
def zoneEmptyFeat : Feature := ⟨zoneGeom, "", ""⟩

/-- The parcel layer fixture. -/
def parcelLayerFix : Layer := ⟨"Subject Parcel", true, none, [parcelFeat]⟩

/-- The district layer fixture. -/
def districtLayerFix : Layer := ⟨"Planning District Outline", true, none, [districtFeat]⟩

/-- The `Florida Mesa` land-use layer fixture. -/
def landUseLayerFix : Layer := ⟨"Florida Mesa", true, none, [zoneFeat]⟩

/-- A map holding the three fixture layers. -/
def mapFix : MapDoc := ⟨[parcelLayerFix, districtLayerFix, landUseLayerFix]⟩

/-- The three configured layouts, each with its expected map frame. -/
def layoutsFix : List Layout :=
  [⟨"Layout1", ["Figure 1"]⟩, ⟨"Layout2", ["Figure 2"]⟩, ⟨"Layout3", ["Figure 3"]⟩]

/-- A complete project fixture. -/
def projFix : Project := ⟨[mapFix], layoutsFix⟩

/-- A one-row reference table fixture. -/
def dfFix : List MetaRow := [⟨"Florida Mesa", "Agricultural", "35 ac", "Agricultural lands"⟩]

/- ### C1 -/

/-- C1: the Directional Prober returns a mapping with exactly the four keys
North, East, South, West in this order; each entry is the label of the first
zone (in the land-use rows' enumeration order) strictly containing the
centroid offset by the direction's fixed pair (North `+50` in y, East `+50`
in x, South `-50` in y, West `-50` in x), or `"Unknown"` when no zone
contains the offset point.  The prober is a total function: a probe miss
never raises. -/
theorem c1_directional_prober (ops : GeoOps) (rows : List Feature) (c : Point) :
    (directional_land_use ops rows c).map Prod.fst = ["North", "East", "South", "West"] ∧
    (directional_land_use ops rows c).length = 4 ∧
    (directional_land_use ops rows c).lookup "North" =
      some ((firstZoneContainingPt ops rows ⟨c.x, c.y + 50⟩).getD "Unknown") ∧
    (directional_land_use ops rows c).lookup "East" =
      some ((firstZoneContainingPt ops rows ⟨c.x + 50, c.y⟩).getD "Unknown") ∧
    (directional_land_use ops rows c).lookup "South" =
      some ((firstZoneContainingPt ops rows ⟨c.x, c.y - 50⟩).getD "Unknown") ∧
    (directional_land_use ops rows c).lookup "West" =
      some ((firstZoneContainingPt ops rows ⟨c.x - 50, c.y⟩).getD "Unknown") := by
  refine ⟨rfl, rfl, ?_, ?_, ?_, ?_⟩ <;>
    simp [directional_land_use, directions, List.lookup, probeLoop_eq_spec,
      sub_eq_add_neg]

/- ### C2 -/

/-- C2 counterexample: a zone overlaps the parcel, so the claim demands its
label (the empty string) be returned, yet the script's falsy guard
`if not land_use_value` raises `LandUseNotFound` instead. -/
theorem c2_cex :
    (opsFix.overlaps zoneEmptyFeat.shape parcelGeom ||
      opsFix.contains zoneEmptyFeat.shape parcelGeom) = true ∧
    firstLandUseSpec opsFix parcelGeom [zoneEmptyFeat] = some "" ∧
    land_use_value_step opsFix parcelGeom [zoneEmptyFeat] =
      Except.error Err.landUseNotFound := by
  refine ⟨by decide, by decide, by decide⟩

/-- C2 (amended): the Land-Use Resolver returns the label of the first zone
for which `overlaps(parcel) OR contains(parcel)` holds provided that label
is a non-empty string, and fails with `LandUseNotFound` both when no zone
satisfies the predicate and when the first satisfying zone's label is the
empty string (the falsy guard conflates the two). -/
theorem c2_land_use_resolver (ops : GeoOps) (parcel : Geometry) (rows : List Feature) :
    (∀ s, (firstLandUseSpec ops parcel rows = some s ∧ s ≠ "") ↔
      land_use_value_step ops parcel rows = Except.ok s) ∧
    ((firstLandUseSpec ops parcel rows = none ∨
        firstLandUseSpec ops parcel rows = some "") ↔
      land_use_value_step ops parcel rows = Except.error Err.landUseNotFound) := by
  unfold land_use_value_step
  rw [firstLandUse_eq_spec]
  cases h : firstLandUseSpec ops parcel rows with
  | none => simp
  | some s0 =>
      by_cases hs : s0 = ""
      · subst hs
        simp
      · simp [hs]

/-- C2 witness: at the fixture, the first overlapping zone is labelled
`Agricultural` and the resolver returns it. -/
theorem c2_witness :
    land_use_value_step opsFix parcelGeom [zoneFeat] = Except.ok "Agricultural" :=
  ((c2_land_use_resolver opsFix parcelGeom [zoneFeat]).1 "Agricultural").mp
    ⟨by decide, by decide⟩

/- ### C3 -/

/-- C3 counterexample: a district polygon contains the parcel, so the claim
demands its PLANNAME (the empty string) be returned, yet the script's falsy
guard `if not planning_district` raises `DistrictNotFound` instead. -/
theorem c3_cex :
    opsFix.contains districtEmptyFeat.shape parcelGeom = true ∧
    firstDistrictSpec opsFix parcelGeom [districtEmptyFeat] = some "" ∧
    planning_district_step opsFix parcelGeom [districtEmptyFeat] =
      Except.error Err.districtNotFound := by
  refine ⟨by decide, by decide, by decide⟩

/-- C3 (amended): the District Resolver returns the PLANNAME of the first
district, in enumeration order, whose polygon contains the parcel provided
that name is a non-empty string, and fails with `DistrictNotFound` both when
no district contains the parcel and when the first containing district's
PLANNAME is the empty string (the falsy guard conflates the two). -/
theorem c3_district_resolver (ops : GeoOps) (parcel : Geometry) (rows : List Feature) :
    (∀ s, (firstDistrictSpec ops parcel rows = some s ∧ s ≠ "") ↔
      planning_district_step ops parcel rows = Except.ok s) ∧
    ((firstDistrictSpec ops parcel rows = none ∨
        firstDistrictSpec ops parcel rows = some "") ↔
      planning_district_step ops parcel rows = Except.error Err.districtNotFound) := by
  unfold planning_district_step
  rw [firstContaining_eq_spec]
  cases h : firstDistrictSpec ops parcel rows with
  | none => simp
  | some s0 =>
      by_cases hs : s0 = ""
      · subst hs
        simp
      · simp [hs]

/-- C3 witness: at the fixture, the first containing district is named
`Florida Mesa` and the resolver returns it. -/
theorem c3_witness :
    planning_district_step opsFix parcelGeom [districtFeat] = Except.ok "Florida Mesa" :=
  ((c3_district_resolver opsFix parcelGeom [districtFeat]).1 "Florida Mesa").mp
    ⟨by decide, by decide⟩

/- ### C4 -/

/-- C4: the Metadata Matcher is invariant under whitespace-trim/lowercase
normalisation of the resolved pair, selects the `(SIZE, DESC)` of the first
row whose normalised (district, type) columns equal the normalised resolved
pair, and returns the sentinel pair `("Not found", "Not found")` — not an
error — when no row matches; it is a total function. -/
theorem c4_metadata_matcher (df : List MetaRow) (d t d' t' : String)
    (h1 : pynormalize d = pynormalize d') (h2 : pynormalize t = pynormalize t') :
    matchResult df d t = matchResult df d' t' ∧
    matchResult df d t = (match matchRowSpec df d t with
      | some r => (r.size, r.desc)
      | none => ("Not found", "Not found")) := by
  constructor
  · unfold matchResult matchRows
    rw [h1, h2]
  · unfold matchResult
    have h : (matchRows df d t).head? = matchRowSpec df d t :=
      head_filter_eq_find _ df
    cases hm : matchRows df d t with
    | nil => rw [hm] at h; simp at h; rw [← h]
    | cons r rest => rw [hm] at h; simp at h; rw [← h]

/-- C4 witness: matching is insensitive to case and surrounding whitespace,
and the fixture row is found under a differently-cased, padded query. -/
theorem c4_witness :
    matchResult dfFix " FLORIDA MESA " "AGRICULTURAL" =
      matchResult dfFix "Florida Mesa" " Agricultural " ∧
    matchResult dfFix " FLORIDA MESA " "AGRICULTURAL" =
      (match matchRowSpec dfFix " FLORIDA MESA " "AGRICULTURAL" with
        | some r => (r.size, r.desc)
        | none => ("Not found", "Not found")) :=
  c4_metadata_matcher dfFix " FLORIDA MESA " "AGRICULTURAL" "Florida Mesa"
    " Agricultural " (by decide) (by decide)

/- ### C5 -/

/-- C5: the query for parcel number `P9` matches zero features; the script's
`next(cursor)[0]` then raises the untyped `StopIteration`, not the typed
`NotFound` the specification requires for a checked, explicit absence. -/
theorem c5_empty_cursor_bug :
    cursorRows { parcelLayerFix with definitionQuery := some "P9" } = [] ∧
    (parcel_geom_step parcelLayerFix "P9").1 = Except.error Err.stopIteration ∧
    Err.stopIteration ≠ Err.notFound := by decide

/- ### C6 fixtures: a resolved district absent from the mapping -/

/-- A provider for the unmapped-district run: the district polygon contains
the parcel, and the parcel's own polygon overlaps itself and contains every
probe point. -/
def opsC6 : GeoOps :=
  { contains := fun a b => a.gid == 1 && b.gid == 0
    overlaps := fun a b => a.gid == 0 && b.gid == 0
    containsPt := fun a _ => a.gid == 0
    centroid := fun _ => ⟨0, 0⟩
    extent := fun g => ⟨g.gid⟩ }

/-- The parcel feature for the unmapped-district run, carrying a label in
its `LUC_TEXT` position. -/
def parcelFeatC6 : Feature := ⟨parcelGeom, "P1", "ZoneP"⟩

/-- The parcel layer for the unmapped-district run. -/
def parcelLayerC6 : Layer := ⟨"Subject Parcel", true, none, [parcelFeatC6]⟩

/-- A district feature named `Bayfield` — a name absent from
`district_to_layer`. -/
def districtFeatC6 : Feature := ⟨districtGeom, "", "Bayfield"⟩

/-- The district layer for the unmapped-district run. -/
def districtLayerC6 : Layer := ⟨"Planning District Outline", true, none, [districtFeatC6]⟩

/-- A map whose first layer is the subject parcel layer. -/
def mapC6 : MapDoc := ⟨[parcelLayerC6, districtLayerC6]⟩

/-- The project for the unmapped-district run. -/
def projC6 : Project := ⟨[mapC6], layoutsFix⟩

/- ### C6 -/

/-- C6: for the resolved district `Bayfield`, which is absent from
`district_to_layer`, no `UnmappedDistrict` error is raised: `dict.get`
returns `None`, `listLayers(None)[0]` silently yields the map's first layer
(here the subject parcel layer itself, definition query and all), the
land-use query is issued against it, and the whole pipeline completes
successfully. -/
theorem c6_unmapped_district_bug :
    dictGet district_to_layer "Bayfield" = none ∧
    planning_district_step opsC6 parcelGeom (cursorRows districtLayerC6) =
      Except.ok "Bayfield" ∧
    land_use_layer_of ⟨setFirstDefQuery mapC6.layers parcel_layer_name "P1"⟩
      "Bayfield" = Except.ok ⟨"Subject Parcel", true, some "P1", [parcelFeatC6]⟩ ∧
    (run opsC6 [] projC6 "P1" "out").result = Except.ok () := by decide

/- ### C7 -/

lemma exportGo_error (layouts : List Layout) (folder pid : String) (ext : Extent)
    (cfg : List (String × String × Option Rat)) (e : Err)
    (h : (exportGo layouts folder pid ext cfg).2 = Except.error e) :
    e = Err.indexError := by
  induction cfg with
  | nil => simp [exportGo] at h
  | cons c rest ih =>
      obtain ⟨ln, fr, sc⟩ := c
      simp only [exportGo] at h
      split at h
      · exact (Except.error.inj h).symm
      · split at h
        · exact (Except.error.inj h).symm
        · exact ih h

lemma exportLayouts_error (layouts : List Layout) (folder pid : String) (ext : Extent)
    (e : Err) (h : (exportLayouts layouts folder pid ext).2 = Except.error e) :
    e = Err.indexError :=
  exportGo_error layouts folder pid ext layout_exports e h

lemma runAfterOut_error_effects (ops : GeoOps) (df : List MetaRow) (m' : MapDoc)
    (pl dl : Layer) (pid folder : String) (layouts : List Layout) (e : Err)
    (h : (runAfterOut ops df m' pl dl pid folder layouts).2 = Except.error e)
    (hne : e ≠ Err.indexError) :
    (runAfterOut ops df m' pl dl pid folder layouts).1 = [] := by
  unfold runAfterOut at h ⊢
  split at h
  · rfl
  · split at h
    · rfl
    · split at h
      · rfl
      · split at h
        · rfl
        · split at h
          · rename_i effs e' heq
            have h2 := congrArg Prod.snd heq
            have h3 : e' = Err.indexError := exportLayouts_error layouts folder pid _ e' h2
            have h4 : e' = e := Except.error.inj h
            rw [← h4] at hne
            exact absurd h3 hne
          · simp at h

/-- C7: whenever a run fails with one of the four fatal pipeline errors
(`NotFound`, `DistrictNotFound`, `UnmappedDistrict`, `LandUseNotFound`),
it emits no output at all — neither a rendered layout nor the text
summary; a partial report never exists. -/
theorem c7_no_partial_output (ops : GeoOps) (df : List MetaRow) (proj : Project)
    (pid folder : String) (e : Err)
    (h : (run ops df proj pid folder).result = Except.error e)
    (he : e = Err.notFound ∨ e = Err.districtNotFound ∨ e = Err.unmappedDistrict ∨
      e = Err.landUseNotFound) :
    (run ops df proj pid folder).effects = [] := by
  have hne : e ≠ Err.indexError := by
    rcases he with h1 | h1 | h1 | h1 <;> subst h1 <;> decide
  rcases proj with ⟨maps, layouts⟩
  cases maps with
  | nil => rfl
  | cons m rest =>
      cases h1 : (layersNamed m.layers parcel_layer_name).head? with
      | none => simp [run, h1]
      | some pl =>
          cases h2 : ((layersNamed m.layers district_outline_name).filter
              (fun l => l.isFeatureLayer)).head? with
          | none => simp [run, h1, h2]
          | some dl =>
              simp only [run, h1, h2] at h ⊢
              exact runAfterOut_error_effects ops df _ pl dl pid folder layouts e h hne

/-- C7 witness: a run in which no district contains the parcel aborts with
`DistrictNotFound` and emits no output effect. -/
theorem c7_witness :
    (run opsNone dfFix projFix "P1" "out").result = Except.error Err.districtNotFound ∧
    (run opsNone dfFix projFix "P1" "out").effects = [] :=
  ⟨by decide,
   c7_no_partial_output opsNone dfFix projFix "P1" "out" Err.districtNotFound
     (by decide) (Or.inr (Or.inl rfl))⟩

/- ### C8 -/

/-- C8 counterexample: resolving the parcel geometry does modify layer
state — the parcel layer's definition query is overwritten and left set. -/
theorem c8_cex : (parcel_geom_step parcelLayerFix "P1").2 ≠ parcelLayerFix := by
  decide

/-- C8 (amended): the Parcel Locator's only state effect beyond the read
query is setting the parcel layer's definition query to the identifier
filter: the layer's name, feature-layer flag and features are untouched,
and at map level every layer keeps its name, flag and features, with the
definition query unchanged except on a layer named `Subject Parcel`. -/
theorem c8_parcel_locator_frame (pl : Layer) (pid : String) (ls : List Layer) :
    (parcel_geom_step pl pid).2.name = pl.name ∧
    (parcel_geom_step pl pid).2.isFeatureLayer = pl.isFeatureLayer ∧
    (parcel_geom_step pl pid).2.features = pl.features ∧
    (parcel_geom_step pl pid).2.definitionQuery = some pid ∧
    List.Forall₂ (fun l l' : Layer =>
        l'.name = l.name ∧ l'.isFeatureLayer = l.isFeatureLayer ∧
        l'.features = l.features ∧
        (l'.definitionQuery = l.definitionQuery ∨
          (l.name = parcel_layer_name ∧ l'.definitionQuery = some pid)))
      ls (setFirstDefQuery ls parcel_layer_name pid) := by
  refine ⟨rfl, rfl, rfl, rfl, ?_⟩
  induction ls with
  | nil => exact List.Forall₂.nil
  | cons l rest ih =>
      by_cases h : (l.name == parcel_layer_name) = true
      · have hl : l.name = parcel_layer_name := by simpa using h
        simp only [setFirstDefQuery, h, if_true]
        refine List.Forall₂.cons ⟨rfl, rfl, rfl, Or.inr ⟨hl, rfl⟩⟩ ?_
        exact List.forall₂_same.mpr (fun x _ => ⟨rfl, rfl, rfl, Or.inl rfl⟩)
      · simp only [setFirstDefQuery, h, if_false, Bool.false_eq_true]
        exact List.Forall₂.cons ⟨rfl, rfl, rfl, Or.inl rfl⟩ ih

/- ### C9 supporting lemmas -/

lemma layersNamed_setFirst_same (ls : List Layer) (nm pid : String) :
    (layersNamed (setFirstDefQuery ls nm pid) nm).head? =
      ((layersNamed ls nm).head?).map
        (fun l => { l with definitionQuery := some pid }) := by
  induction ls with
  | nil => rfl
  | cons l rest ih =>
      by_cases h : (l.name == nm) = true
      · simp [setFirstDefQuery, layersNamed, List.filter_cons, h]
      · have h' : (l.name == nm) = false := by simpa using h
        simp [setFirstDefQuery, layersNamed, List.filter_cons, h'] at ih ⊢
        exact ih

lemma layersNamed_setFirst_other (ls : List Layer) (nm nm2 pid : String)
    (hne : nm ≠ nm2) :
    layersNamed (setFirstDefQuery ls nm pid) nm2 = layersNamed ls nm2 := by
  induction ls with
  | nil => rfl
  | cons l rest ih =>
      by_cases h : (l.name == nm) = true
      · have hl : l.name = nm := by simpa using h
        have h2 : (l.name == nm2) = false := by
          simp [hl, hne]
        simp [setFirstDefQuery, layersNamed, List.filter_cons, h, h2]
      · simp only [setFirstDefQuery, h, if_false, Bool.false_eq_true, layersNamed,
          List.filter_cons] at ih ⊢
        by_cases h2 : (l.name == nm2) = true
        · simp [h2, ih]
        · simp only [Bool.not_eq_true] at h2
          simp [h2, ih]

lemma setFirst_idem (ls : List Layer) (nm pid : String) :
    setFirstDefQuery (setFirstDefQuery ls nm pid) nm pid =
      setFirstDefQuery ls nm pid := by
  induction ls with
  | nil => rfl
  | cons l rest ih =>
      by_cases h : (l.name == nm) = true
      · simp [setFirstDefQuery, h]
      · simp only [setFirstDefQuery, h, if_false, Bool.false_eq_true]
        rw [ih]

lemma runAfterOut_defQuery_irrel (ops : GeoOps) (df : List MetaRow) (m' : MapDoc)
    (pl dl : Layer) (pid folder : String) (layouts : List Layout) (x : Option String) :
    runAfterOut ops df m' { pl with definitionQuery := x } dl pid folder layouts =
      runAfterOut ops df m' pl dl pid folder layouts := rfl

/- ### C9 -/

/-- C9: re-running the full pipeline on the project state a run leaves
behind — the geometry data, district-to-layer mapping and reference table
unchanged (the only state a run writes is the parcel layer's definition
query, which the next run overwrites before reading) — reproduces the run
outcome exactly: same output effects byte for byte, same result, same
final state. -/
theorem c9_idempotent (ops : GeoOps) (df : List MetaRow) (proj : Project)
    (pid folder : String) :
    run ops df (run ops df proj pid folder).final pid folder =
      run ops df proj pid folder := by
  rcases proj with ⟨maps, layouts⟩
  cases maps with
  | nil => rfl
  | cons m rest =>
      cases h1 : (layersNamed m.layers parcel_layer_name).head? with
      | none => simp [run, h1]
      | some pl =>
          cases h2 : ((layersNamed m.layers district_outline_name).filter
              (fun l => l.isFeatureLayer)).head? with
          | none => simp [run, h1, h2]
          | some dl =>
              have hpn : (layersNamed
                  (setFirstDefQuery m.layers parcel_layer_name pid)
                  parcel_layer_name).head? =
                  some { pl with definitionQuery := some pid } := by
                rw [layersNamed_setFirst_same, h1]; rfl
              have hdn : ((layersNamed
                  (setFirstDefQuery m.layers parcel_layer_name pid)
                  district_outline_name).filter
                  (fun l => l.isFeatureLayer)).head? = some dl := by
                rw [layersNamed_setFirst_other _ _ _ _ (by decide), h2]
              simp only [run, h1, h2, hpn, hdn, setFirst_idem,
                runAfterOut_defQuery_irrel]

/- ### C10 -/

/-- Every layer name the `district_to_layer` dictionary can produce differs
from the parcel layer's name, so the definition-query mutation of Step 1
never touches a layer the land-use lookup could name. -/
lemma dictGet_ne_parcel_layer (d nm : String)
    (h : dictGet district_to_layer d = some nm) : nm ≠ parcel_layer_name := by
  unfold dictGet at h
  cases hf : district_to_layer.find? (fun p => p.1 == d) with
  | none => rw [hf] at h; simp at h
  | some p =>
      rw [hf] at h
      simp only [Option.map, Option.some.injEq] at h
      have hmem : p ∈ district_to_layer := List.mem_of_find?_eq_some hf
      have hall : ∀ q ∈ district_to_layer, q.2 ≠ parcel_layer_name := by decide
      rw [← h]
      exact hall p hmem

/-- C10: the unguarded `[0]` layer-list lookups raise `IndexError`, never
one of the four typed pipeline errors.  First conjunct (primary scenario):
in a run that locates the parcel and resolves a district whose mapped
land-use layer name matches no layer of the map, the land-use lookup of
line 76 raises `IndexError` and the run aborts with it.  Second and third
conjuncts: a map without the parcel layer, or without a district feature
layer, makes the corresponding startup `[0]` of lines 55-56 raise
`IndexError`.  Last conjuncts: `IndexError` is none of the four typed
errors. -/
theorem c10_index_error (ops : GeoOps) (df : List MetaRow) (m : MapDoc)
    (rest : List MapDoc) (layouts : List Layout) (pid folder : String) :
    (∀ pl dl parcel district nm,
      (layersNamed m.layers parcel_layer_name).head? = some pl →
      ((layersNamed m.layers district_outline_name).filter
        (fun l => l.isFeatureLayer)).head? = some dl →
      (parcel_geom_step pl pid).1 = Except.ok parcel →
      planning_district_step ops parcel (cursorRows dl) = Except.ok district →
      dictGet district_to_layer district = some nm →
      layersNamed m.layers nm = [] →
      land_use_layer_of ⟨setFirstDefQuery m.layers parcel_layer_name pid⟩ district =
        Except.error Err.indexError ∧
      (run ops df ⟨m :: rest, layouts⟩ pid folder).result =
        Except.error Err.indexError) ∧
    ((layersNamed m.layers parcel_layer_name).head? = none →
      (run ops df ⟨m :: rest, layouts⟩ pid folder).result =
        Except.error Err.indexError) ∧
    (((layersNamed m.layers district_outline_name).filter
        (fun l => l.isFeatureLayer)).head? = none →
      (run ops df ⟨m :: rest, layouts⟩ pid folder).result =
        Except.error Err.indexError) ∧
    Err.indexError ≠ Err.notFound ∧ Err.indexError ≠ Err.districtNotFound ∧
    Err.indexError ≠ Err.unmappedDistrict ∧ Err.indexError ≠ Err.landUseNotFound := by
  refine ⟨?_, ?_, ?_, by decide, by decide, by decide, by decide⟩
  · intro pl dl parcel district nm hpl hdl hgeom hdist hnm hmiss
    have hne : parcel_layer_name ≠ nm := (dictGet_ne_parcel_layer district nm hnm).symm
    have hmiss' : layersNamed (setFirstDefQuery m.layers parcel_layer_name pid) nm = [] := by
      rw [layersNamed_setFirst_other _ _ _ _ hne]
      exact hmiss
    have hland : land_use_layer_of ⟨setFirstDefQuery m.layers parcel_layer_name pid⟩
        district = Except.error Err.indexError := by
      unfold land_use_layer_of
      rw [hnm]
      simp [listLayers, hmiss']
    refine ⟨hland, ?_⟩
    simp only [run, hpl, hdl]
    simp only [runAfterOut, hgeom, hdist, hland]
  · intro h
    simp [run, h]
  · intro h
    cases hpl : (layersNamed m.layers parcel_layer_name).head? with
    | none => simp [run, hpl]
    | some pl => simp [run, hpl, h]

/-- A map fixture with a single unrelated layer: no subject parcel layer,
and no layer named after any mapped district. -/
def mapC10 : MapDoc := ⟨[⟨"Roads", true, none, []⟩]⟩

/-- A map fixture holding the parcel and district layers but no layer named
`Florida Mesa`: the parcel is located and the district resolved, yet the
mapped land-use layer name matches nothing. -/
def mapC10p : MapDoc := ⟨[parcelLayerFix, districtLayerFix]⟩

/-- A map fixture holding only the parcel layer: no district feature
layer. -/
def mapC10d : MapDoc := ⟨[parcelLayerFix]⟩

/-- C10 witness: a run on `mapC10p` locates parcel `P1` and resolves the
district `Florida Mesa`, whose mapped layer name matches no layer, and the
land-use lookup plus the whole run end in `IndexError`; a run on a map
without the parcel layer, and one on a map without the district layer, each
end in `IndexError` at startup. -/
theorem c10_witness :
    (land_use_layer_of ⟨setFirstDefQuery mapC10p.layers parcel_layer_name "P1"⟩
        "Florida Mesa" = Except.error Err.indexError ∧
      (run opsFix dfFix ⟨[mapC10p], layoutsFix⟩ "P1" "out").result =
        Except.error Err.indexError) ∧
    (run opsNone [] ⟨[mapC10], []⟩ "P1" "out").result = Except.error Err.indexError ∧
    (run opsFix dfFix ⟨[mapC10d], layoutsFix⟩ "P1" "out").result =
      Except.error Err.indexError ∧
    Err.indexError ≠ Err.notFound :=
  ⟨(c10_index_error opsFix dfFix mapC10p [] layoutsFix "P1" "out").1
      parcelLayerFix districtLayerFix parcelGeom "Florida Mesa" "Florida Mesa"
      (by decide) (by decide) (by decide) (by decide) (by decide) (by decide),
   (c10_index_error opsNone [] mapC10 [] [] "P1" "out").2.1 (by decide),
   (c10_index_error opsFix dfFix mapC10d [] layoutsFix "P1" "out").2.2.1 (by decide),
   (c10_index_error opsFix dfFix mapC10p [] layoutsFix "P1" "out").2.2.2.1⟩

end LandUse
